import Mathlib

set_option autoImplicit false
set_option maxHeartbeats 1000000

/-!
Shallow embedding of the Draconis++ "Now Playing" plugin
(`now_playing.cpp` and `now_playing_macos.mm`): the MPRIS/DBus backend,
the Windows NPSM backend, the macOS `media-control` subprocess fallback,
and the plugin adapter's data-collection step.

Native library calls (the DBus transport, COM object activation,
`WideCharToMultiByte`, the glaze JSON parser) are modelled as explicit
inputs to the embedded functions; everything the plugin's own code does
with the values those calls produce is embedded as executable Lean
functions, mirroring the C++ control flow branch by branch.
-/

/-- Error codes of the Drac++ error taxonomy (`DracErrorCode` in
`Drac++/Utils/Error.hpp`), restricted to the codes this plugin uses. -/
inductive DracErrorCode where
  | NotFound
  | ApiUnavailable
  | ParseError
  | InvalidArgument
  | OutOfMemory
  | InternalError
  | PlatformSpecific
  | IoError
  | NotSupported
  | Other
  deriving DecidableEq, Repr

/-- A Drac++ error value: an error code plus a human-readable message
(`DracError` with its `message` field). -/
structure DracError where
  code : DracErrorCode
  message : String
  deriving DecidableEq, Repr

/-- The common output record `now_playing::MediaData`: four independently
optional text fields. -/
structure MediaData where
  title : Option String
  artist : Option String
  album : Option String
  playerName : Option String
  deriving DecidableEq, Repr

/-- Substring test on character lists: `hasSubList pat l` is `true` exactly
when `pat` occurs contiguously inside `l`.  Used to state that an error
message carries a given fragment (such as a formatted HRESULT). -/
def hasSubList (pat : List Char) : List Char → Bool
  | [] => pat.isEmpty
  | c :: rest => pat.isPrefixOf (c :: rest) || hasSubList pat rest

/-- Substring test on strings, via `hasSubList` on the character data. -/
def strContains (s pat : String) : Bool :=
  hasSubList pat.data s.data

/-- Model of `std::string::starts_with`. -/
def strStartsWith (s pat : String) : Bool :=
  pat.data.isPrefixOf s.data

/-- Model of `std::string::substr(n)` (drop the first `n` characters; all
prefixes involved here are ASCII, so bytes and characters coincide). -/
def strDrop (s : String) (n : Nat) : String :=
  String.mk (s.data.drop n)

/-- One uppercase hexadecimal digit, as produced by `std::format` with
the `X` conversion. -/
def hexDigit (n : Nat) : Char :=
  if n < 10 then Char.ofNat (48 + n) else Char.ofNat (55 + n)

/-- Model of `std::format("{:08X}", n)` for a 32-bit value: eight
uppercase hexadecimal digits. -/
def toHex8 (n : Nat) : String :=
  String.mk [hexDigit (n / 268435456 % 16), hexDigit (n / 16777216 % 16),
    hexDigit (n / 1048576 % 16), hexDigit (n / 65536 % 16),
    hexDigit (n / 4096 % 16), hexDigit (n / 256 % 16),
    hexDigit (n / 16 % 16), hexDigit (n % 16)]

/-- DBus argument type codes, as returned by
`dbus_message_iter_get_arg_type` and `dbus_message_iter_get_element_type`
(only the codes this plugin inspects, plus representatives of the rest). -/
inductive DType where
  | invalid
  | string
  | int32
  | boolean
  | array
  | variant
  | dictEntry
  deriving DecidableEq, Repr

/-- A DBus message argument value.  An `array` carries its declared
element type (DBus arrays are typed even when empty), a `variant` wraps a
single value, and a `dictEntry` holds exactly a key and a value. -/
inductive DVal where
  | str (s : String)
  | int32 (n : Int)
  | boolean (b : Bool)
  | array (elemTy : DType) (elems : List DVal)
  | variant (v : DVal)
  | dictEntry (key : DVal) (val : DVal)

/-- The DBus type code of a value. -/
def DVal.typeOf : DVal → DType
  | .str _ => .string
  | .int32 _ => .int32
  | .boolean _ => .boolean
  | .array _ _ => .array
  | .variant _ => .variant
  | .dictEntry _ _ => .dictEntry

/-- Model of the `now_playing::dbus::MessageIter` wrapper: a cursor into a
sequence of DBus values (`rest` is the current value followed by the
values not yet visited) plus the wrapper's `m_isValid` flag. -/
structure MessageIter where
  rest : List DVal
  valid : Bool

namespace MessageIter

/-- Model of `MessageIter::getArgType`: the type code of the current
value, or `invalid` when the cursor is invalid or exhausted. -/
def getArgType (it : MessageIter) : DType :=
  if it.valid then
    match it.rest with
    | [] => .invalid
    | v :: _ => v.typeOf
  else .invalid

/-- Model of `MessageIter::getElementType`: the declared element type of
the current array value, `invalid` otherwise. -/
def getElementType (it : MessageIter) : DType :=
  if it.valid then
    match it.rest with
    | DVal.array ty _ :: _ => ty
    | _ => .invalid
  else .invalid

/-- Model of `MessageIter::recurse`: descend into the current container
value.  On a valid iterator libdbus is only ever called on a container
here, and the wrapper marks the sub-iterator valid unconditionally. -/
def recurse (it : MessageIter) : MessageIter :=
  if it.valid then
    match it.rest with
    | DVal.variant v :: _ => ⟨[v], true⟩
    | DVal.array _ es :: _ => ⟨es, true⟩
    | DVal.dictEntry k v :: _ => ⟨[k, v], true⟩
    | _ => ⟨[], true⟩
  else ⟨[], false⟩

/-- Model of `MessageIter::getString`: the current value when it is a
string whose `strlen` is positive, `None` otherwise. -/
def getString (it : MessageIter) : Option String :=
  if it.valid then
    match it.rest with
    | DVal.str s :: _ => if s.length > 0 then some s else none
    | _ => none
  else none

end MessageIter

/-- Model of `Message::iterInit`: `dbus_message_iter_init` returns false
(an invalid iterator) exactly when the message has no arguments. -/
def iterInit (args : List DVal) : MessageIter :=
  ⟨args, !args.isEmpty⟩

namespace dbus

/-- The fixed MPRIS bus-name prefix `"org.mpris.MediaPlayer2."`. -/
def mprisPrefixVal : String := "org.mpris.MediaPlayer2."

/-- Embedding of `now_playing::dbus::extractPlayerName`. -/
def extractPlayerName (busName : String) : String :=
  if strStartsWith busName mprisPrefixVal then
    strDrop busName mprisPrefixVal.length
  else busName

/-- What `MessageIter::getString` yields for a single value: a string of
positive length, otherwise `none`. -/
def getStringVal : DVal → Option String
  | .str s => if s.length > 0 then some s else none
  | _ => none

/-- The bus-name scan loop of `fetchNowPlaying` (source lines 545-553):
walk the name array, stop at the first successfully read name that starts
with the MPRIS prefix.  Breaking when `next` fails at the end of the
array coincides with recursing to the empty list. -/
def findPlayerLoop : List DVal → Option String
  | [] => none
  | v :: rest =>
    match getStringVal v with
    | some name =>
      if strStartsWith name mprisPrefixVal then some name
      else findPlayerLoop rest
    | none => findPlayerLoop rest

/-- Stage one of `dbus::fetchNowPlaying` (the scoped discovery block plus
the `NotFound` check): parse the `ListNames` reply and select the active
player. -/
def listNamesPlayer (listNamesReply : List DVal) : Except DracError String :=
  let iter := iterInit listNamesReply
  if iter.valid = false ∨ ¬iter.getArgType = DType.array then
    .error ⟨.ParseError, "Invalid DBus ListNames reply format: Expected array"⟩
  else
    let subIter := iter.recurse
    if subIter.valid = false then
      .error ⟨.ParseError, "Invalid DBus ListNames reply format: Could not recurse into array"⟩
    else
      match findPlayerLoop subIter.rest with
      | some name => .ok name
      | none => .error ⟨.NotFound, "No active MPRIS players found"⟩

/-- The per-entry update of the metadata loop once a string key and the
variant payload `inner` have been extracted (source lines 616-627). -/
def applyEntry (data : MediaData) (key : String) (inner : DVal) : MediaData :=
  if key = "xesam:title" then
    { data with title := getStringVal inner }
  else if key = "xesam:album" then
    { data with album := getStringVal inner }
  else if key = "xesam:artist" then
    match inner with
    | DVal.array ty elems =>
      if ty = DType.string then
        match elems with
        | [] => { data with artist := none }
        | v :: _ => { data with artist := getStringVal v }
      else data
    | _ => data
  else data

/-- The dictionary-entry loop of `fetchNowPlaying` (source lines 588-631):
entries whose key is not a non-empty string or whose value is not a
variant are skipped; a current value that is not a dict entry exits the
loop. -/
def metadataLoop : List DVal → MediaData → MediaData
  | [], data => data
  | entry :: rest, data =>
    match entry with
    | DVal.dictEntry k v =>
      match getStringVal k with
      | none => metadataLoop rest data
      | some key =>
        match v with
        | DVal.variant inner => metadataLoop rest (applyEntry data key inner)
        | _ => metadataLoop rest data
    | _ => data

/-- Stage two of `dbus::fetchNowPlaying` (source lines 570-633): check the
shape of the `Properties.Get` reply — a variant wrapping an array of dict
entries — then run the dictionary loop. -/
def parseMetadata (reply : List DVal) (data : MediaData) : Except DracError MediaData :=
  let propIter := iterInit reply
  if propIter.valid = false then
    .error ⟨.ParseError, "Properties.Get reply has no arguments"⟩
  else if ¬propIter.getArgType = DType.variant then
    .error ⟨.ParseError, "Properties.Get reply argument is not a variant"⟩
  else
    let variantIter := propIter.recurse
    if variantIter.valid = false then
      .error ⟨.ParseError, "Could not recurse into variant"⟩
    else if ¬variantIter.getArgType = DType.array ∨ ¬variantIter.getElementType = DType.dictEntry then
      .error ⟨.ParseError, "Metadata is not a dictionary array"⟩
    else
      let dictIter := variantIter.recurse
      if dictIter.valid = false then
        .error ⟨.ParseError, "Could not recurse into metadata dictionary"⟩
      else
        .ok (metadataLoop dictIter.rest data)

/-- Embedding of `now_playing::dbus::fetchNowPlaying`, parameterised by
the two native replies (the `ListNames` reply and the `Properties.Get`
reply); the embedding covers the executions in which the bus connection
and the two blocking calls themselves succeed and deliver those replies. -/
def fetchNowPlaying (listNamesReply metadataReply : List DVal) : Except DracError MediaData :=
  match listNamesPlayer listNamesReply with
  | .error e => .error e
  | .ok activePlayer =>
    parseMetadata metadataReply
      ⟨none, none, none, some (extractPlayerName activePlayer)⟩

/-- Decidable test for the accepted top-level shape of the
`Properties.Get` reply: first argument a variant wrapping an array whose
declared element type is dict-entry. -/
def goodShapeB : List DVal → Bool
  | DVal.variant (DVal.array DType.dictEntry _) :: _ => true
  | _ => false

end dbus

namespace npsm

/-- FAILED(hr) for an HRESULT represented as its unsigned 32-bit value:
the high bit set means a negative (failing) HRESULT. -/
def hrFailed (hr : Nat) : Bool :=
  decide (2147483648 ≤ hr)

/-- Oracle for the two `WideCharToMultiByte` calls of
`ConvertWStringToUTF8` and for `GetLastError`: the size reported by the
first call, the byte count reported and the buffer produced by the
second, and the thread's last-error code.  A wide string is a list of
UTF-16 code units. -/
structure Utf8Conv where
  sizeNeeded : List Nat → Nat
  bytesConverted : List Nat → Nat → Nat
  converted : List Nat → Nat → String
  lastError : Nat

/-- Embedding of `now_playing::npsm::ConvertWStringToUTF8`. -/
def ConvertWStringToUTF8 (conv : Utf8Conv) (wstr : List Nat) : Except DracError String :=
  if wstr = [] then .ok ""
  else
    let sizeNeeded := conv.sizeNeeded wstr
    if sizeNeeded = 0 then
      .error ⟨.InternalError,
        "Failed to get buffer size for UTF-8 conversion. Error code: " ++ Nat.repr conv.lastError⟩
    else
      let bytesConverted := conv.bytesConverted wstr sizeNeeded
      if bytesConverted = 0 then
        .error ⟨.InternalError,
          "Failed to convert wide string to UTF-8. Error code: " ++ Nat.repr conv.lastError⟩
      else
        .ok (conv.converted wstr sizeNeeded)

/-- Outcome of a COM call that produces an interface pointer: the
HRESULT and whether the returned pointer is non-null. -/
structure ComCall where
  hr : Nat
  obj : Bool

/-- Outcome of `IPropertyStore::GetValue` on one property key: the
HRESULT, whether the returned PROPVARIANT has `vt == VT_LPWSTR`, and the
pointed-to wide string (`none` models a null `pwszVal`). -/
structure PropVariantRes where
  hr : Nat
  vtIsLpwstr : Bool
  pwszVal : Option (List Nat)

/-- The native environment one run of `npsm::FetchNowPlaying` observes:
the result of every COM call it makes, in source order, plus the
wide-to-UTF-8 conversion oracle. -/
structure WinEnv where
  conv : Utf8Conv
  coCreateHr : Nat
  getCountHr : Nat
  sessionCount : Nat
  currentSession : ComCall
  asSessionHr : Nat
  activateSource : ComCall
  asDataSource2Hr : Nat
  mediaObjectInfo2 : ComCall
  asDataSourceHr : Nat
  mediaObjectInfo : ComCall
  titleProp : PropVariantRes
  artistProp : PropVariantRes
  albumProp : PropVariantRes

/-- One property read (source lines 215-231): the field is set when
`GetValue` succeeded, the variant holds a non-null `VT_LPWSTR`, the
UTF-8 conversion succeeded and the converted string is non-empty. -/
def readProp (conv : Utf8Conv) (p : PropVariantRes) : Option String :=
  match p.pwszVal with
  | none => none
  | some w =>
    if hrFailed p.hr = false ∧ p.vtIsLpwstr = true then
      match ConvertWStringToUTF8 conv w with
      | .ok s => if s.length > 0 then some s else none
      | .error _ => none
    else none

/-- The three independent property reads once the property store has
been obtained. -/
def readProps (env : WinEnv) : MediaData :=
  ⟨readProp env.conv env.titleProp,
   readProp env.conv env.artistProp,
   readProp env.conv env.albumProp,
   none⟩

/-- Embedding of `now_playing::npsm::FetchNowPlaying`: the negotiation
chain (`CoCreateInstance` → `get_CurrentSession` → interface query →
`ActivateMediaPlaybackDataSource` → version-negotiated
`GetMediaObjectInfo`) followed by the three property reads. -/
def FetchNowPlaying (env : WinEnv) : Except DracError MediaData :=
  if hrFailed env.coCreateHr = true then
    .error ⟨.ApiUnavailable,
      "Failed to create NowPlayingSessionManager (HRESULT: 0x" ++ (toHex8 env.coCreateHr ++ ")")⟩
  else
    let sessionCount := if hrFailed env.getCountHr = true then 0 else env.sessionCount
    if hrFailed env.currentSession.hr = true ∨ env.currentSession.obj = false then
      .error ⟨.NotFound,
        "No media session found (HRESULT: 0x" ++
          (toHex8 env.currentSession.hr ++ (", sessionCount=" ++ (Nat.repr sessionCount ++ ")")))⟩
    else if hrFailed env.asSessionHr = true then
      .error ⟨.ApiUnavailable,
        "Failed to get INowPlayingSession interface (HRESULT: 0x" ++ (toHex8 env.asSessionHr ++ ")")⟩
    else if hrFailed env.activateSource.hr = true ∨ env.activateSource.obj = false then
      .error ⟨.ApiUnavailable,
        "Failed to activate MediaPlaybackDataSource (HRESULT: 0x" ++ (toHex8 env.activateSource.hr ++ ")")⟩
    else if hrFailed env.asDataSource2Hr = false then
      if hrFailed env.mediaObjectInfo2.hr = true ∨ env.mediaObjectInfo2.obj = false then
        .error ⟨.ApiUnavailable, "Failed to get media object info"⟩
      else .ok (readProps env)
    else if hrFailed env.asDataSourceHr = true then
      .error ⟨.ApiUnavailable,
        "Failed to get IMediaPlaybackDataSource interface (HRESULT: 0x" ++ (toHex8 env.asDataSourceHr ++ ")")⟩
    else if hrFailed env.mediaObjectInfo.hr = true ∨ env.mediaObjectInfo.obj = false then
      .error ⟨.ApiUnavailable, "Failed to get media object info"⟩
    else .ok (readProps env)

/-- The negotiation chain succeeds and a property store is obtained. -/
def negotiationOk (env : WinEnv) : Bool :=
  !hrFailed env.coCreateHr &&
  (!hrFailed env.currentSession.hr && env.currentSession.obj) &&
  !hrFailed env.asSessionHr &&
  (!hrFailed env.activateSource.hr && env.activateSource.obj) &&
  (if hrFailed env.asDataSource2Hr then
    !hrFailed env.asDataSourceHr && (!hrFailed env.mediaObjectInfo.hr && env.mediaObjectInfo.obj)
  else
    !hrFailed env.mediaObjectInfo2.hr && env.mediaObjectInfo2.obj)

/-- A property lookup that fails, reports a non-`VT_LPWSTR` value (which
is how an absent property surfaces), or hands back a null pointer. -/
def propLookupBad (p : PropVariantRes) : Bool :=
  hrFailed p.hr || !p.vtIsLpwstr || p.pwszVal.isNone

end npsm

namespace macos

/-- The glaze target record for the `media-control` output
(`now_playing::macos::MediaControlOutput`). -/
structure MediaControlOutput where
  title : String
  artist : String
  album : String
  playing : Bool
  deriving DecidableEq, Repr

/-- The conditional field assignment used for artist and album: the
parsed string when it is non-empty, absent otherwise. -/
def optNonempty (s : String) : Option String :=
  if ¬s = "" then some s else none

/-- Embedding of `now_playing::macos::fetchViaMediaControl`,
parameterised by the native observations: the located helper path (if
any), whether `popen` succeeded, the captured standard output, and what
the glaze JSON parser produces on that output (`none` models a parse
error). -/
def fetchViaMediaControl (pathOpt : Option String) (pipeOk : Bool)
    (output : String) (parsed : Option MediaControlOutput) : Except DracError MediaData :=
  match pathOpt with
  | none =>
    .error ⟨.ApiUnavailable, "media-control CLI not found. Install via: brew install media-control"⟩
  | some _ =>
    if pipeOk = false then
      .error ⟨.IoError, "Failed to execute media-control"⟩
    else if output = "" ∨ output = "null\n" ∨ output = "null" then
      .error ⟨.NotFound, "No media is currently playing"⟩
    else
      match parsed with
      | none => .error ⟨.ParseError, "Failed to parse media-control output"⟩
      | some p =>
        if p.title = "" then
          .error ⟨.NotFound, "No media is currently playing"⟩
        else
          .ok ⟨some p.title, optNonempty p.artist, optNonempty p.album, none⟩

end macos

/-- The mutable members of `NowPlayingPlugin` that `collectData` reads or
writes. -/
structure PluginState where
  m_data : MediaData
  m_lastError : Option String
  m_ready : Bool
  m_enabled : Bool

/-- Embedding of `NowPlayingPlugin::collectData` (source lines 692-720),
parameterised by the fetch outcome of this poll cycle: the updated plugin
state and the returned result. -/
def collectData (st : PluginState) (fetchResult : Except DracError MediaData) :
    PluginState × Except DracError Unit :=
  if st.m_ready = false then
    (st, .error ⟨.NotSupported, "Now Playing plugin is not ready"⟩)
  else if st.m_enabled = false then
    ({ st with m_lastError := some "Now Playing plugin is disabled" }, .ok ())
  else
    match fetchResult with
    | .error e => ({ st with m_lastError := some e.message }, .error e)
    | .ok d => ({ st with m_lastError := none, m_data := d }, .ok ())

deriving instance DecidableEq for Except

namespace dbus

/-- Whether a DBus value is a variant (the test
`entryIter.getArgType() == DBUS_TYPE_VARIANT` applied to the entry's
value position). -/
def isVariantB : DVal → Bool
  | .variant _ => true
  | _ => false

end dbus

/-- A conversion oracle on which both `WideCharToMultiByte` calls
succeed, producing the one-character string `"T"`. -/
def convOk : npsm.Utf8Conv :=
  ⟨fun _ => 1, fun _ _ => 1, fun _ _ => "T", 0⟩

/-- A conversion oracle on which the sizing call reports zero. -/
def convZero : npsm.Utf8Conv :=
  ⟨fun _ => 0, fun _ _ => 0, fun _ _ => "", 7⟩

/-- A Windows environment in which the whole negotiation chain succeeds,
the title property is a readable wide string, the artist lookup fails
with an HRESULT and the album value has the wrong variant type. -/
def envObtained : npsm.WinEnv :=
  ⟨convOk, 0, 0, 1, ⟨0, true⟩, 0, ⟨0, true⟩, 0, ⟨0, true⟩, 0, ⟨0, true⟩,
   ⟨0, true, some [84]⟩, ⟨2147500037, true, some [66]⟩, ⟨0, false, none⟩⟩

/-- A Windows environment in which negotiation succeeds up to
`GetMediaObjectInfo` on the newer interface, which then fails with
HRESULT `0x80004005` and a null property store. -/
def envMoiFail : npsm.WinEnv :=
  ⟨convOk, 0, 0, 1, ⟨0, true⟩, 0, ⟨0, true⟩, 0, ⟨2147500037, false⟩, 0, ⟨0, true⟩,
   ⟨0, true, some [84]⟩, ⟨0, true, some [66]⟩, ⟨0, true, some [67]⟩⟩

/-- A Windows environment in which `CoCreateInstance` itself fails with
HRESULT `0x80004005`. -/
def envCoFail : npsm.WinEnv :=
  ⟨convOk, 2147500037, 0, 0, ⟨0, true⟩, 0, ⟨0, true⟩, 0, ⟨0, true⟩, 0, ⟨0, true⟩,
   ⟨0, false, none⟩, ⟨0, false, none⟩, ⟨0, false, none⟩⟩


namespace npsm

/-- The message of the failing `CoCreateInstance` branch (source line
168). -/
def msgCoCreate (env : WinEnv) : String :=
  "Failed to create NowPlayingSessionManager (HRESULT: 0x" ++ (toHex8 env.coCreateHr ++ ")")

/-- The session count reported in the `NotFound` message: the value
written by `get_Count` when that call succeeded, otherwise the zero
initialiser (source lines 171-173). -/
def sessionCountVal (env : WinEnv) : Nat :=
  if hrFailed env.getCountHr = true then 0 else env.sessionCount

/-- The message of the no-current-session branch (source line 178). -/
def msgNoSession (env : WinEnv) : String :=
  "No media session found (HRESULT: 0x" ++
    (toHex8 env.currentSession.hr ++
      (", sessionCount=" ++ (Nat.repr (sessionCountVal env) ++ ")")))

/-- The message of the failing session-interface query (source line
183). -/
def msgAsSession (env : WinEnv) : String :=
  "Failed to get INowPlayingSession interface (HRESULT: 0x" ++ (toHex8 env.asSessionHr ++ ")")

/-- The message of the failing data-source activation (source line
188). -/
def msgActivate (env : WinEnv) : String :=
  "Failed to activate MediaPlaybackDataSource (HRESULT: 0x" ++
    (toHex8 env.activateSource.hr ++ ")")

/-- The message of the failing fallback-interface query (source line
201). -/
def msgAsDataSource (env : WinEnv) : String :=
  "Failed to get IMediaPlaybackDataSource interface (HRESULT: 0x" ++
    (toHex8 env.asDataSourceHr ++ ")")

/-- The chain up to and including data-source activation succeeds. -/
def preNegotiationOk (env : WinEnv) : Bool :=
  !hrFailed env.coCreateHr &&
  (!hrFailed env.currentSession.hr && env.currentSession.obj) &&
  !hrFailed env.asSessionHr &&
  (!hrFailed env.activateSource.hr && env.activateSource.obj)

/-- The version-negotiated `GetMediaObjectInfo` step fails or yields a
null property store (on whichever interface was negotiated). -/
def mediaObjectInfoFailed (env : WinEnv) : Bool :=
  if hrFailed env.asDataSource2Hr then
    !hrFailed env.asDataSourceHr &&
      (hrFailed env.mediaObjectInfo.hr || !env.mediaObjectInfo.obj)
  else
    hrFailed env.mediaObjectInfo2.hr || !env.mediaObjectInfo2.obj

end npsm

/-- A Windows environment in which the chain succeeds, the title and
album properties are readable wide strings and only the artist lookup
fails with an HRESULT. -/
def envArtistBad : npsm.WinEnv :=
  ⟨convOk, 0, 0, 1, ⟨0, true⟩, 0, ⟨0, true⟩, 0, ⟨0, true⟩, 0, ⟨0, true⟩,
   ⟨0, true, some [84]⟩, ⟨2147500037, true, some [66]⟩, ⟨0, true, some [67]⟩⟩

namespace macos

/-- The native dictionary handed to the MediaRemote callback: each field
is `some s` when the corresponding `NSString` is non-nil (with UTF-8
content `s`, possibly empty), `none` when it is nil. -/
structure MRInfo where
  title : Option String
  artist : Option String
  album : Option String

/-- Embedding of `now_playing::macos::fetchViaNativeApi` (source lines
907-984), parameterised by the native observations: whether the CFURL,
the bundle and the function pointer were obtained, and the callback's
dictionary (`none` models a nil `information`).  The callback copies the
three native strings verbatim into the record and converts only an
absent title into `NotFound`. -/
def fetchViaNativeApi (urlOk bundleOk fnOk : Bool) (info : Option MRInfo) :
    Except DracError MediaData :=
  if urlOk = false then
    .error ⟨.NotFound, "Failed to create CFURL for MediaRemote.framework"⟩
  else if bundleOk = false then
    .error ⟨.ApiUnavailable, "Failed to create bundle for MediaRemote.framework"⟩
  else if fnOk = false then
    .error ⟨.ApiUnavailable, "Failed to get MRMediaRemoteGetNowPlayingInfo function pointer"⟩
  else
    match info with
    | none => .error ⟨.NotFound, "No media is currently playing"⟩
    | some i =>
      match i.title with
      | none => .error ⟨.NotFound, "No media is currently playing"⟩
      | some t => .ok ⟨some t, i.artist, i.album, none⟩

end macos

/-! ### String helper lemmas -/

theorem strData_append (a b : String) : (a ++ b).data = a.data ++ b.data := rfl

theorem str_of_length_zero {s : String} (h : s.length = 0) : s = "" := by
  apply String.ext
  have hd : s.data.length = 0 := h
  exact List.length_eq_zero.mp hd

theorem hasSubList_nil_pat (l : List Char) : hasSubList [] l = true := by
  cases l <;> simp [hasSubList, List.isPrefixOf]

theorem hasSubList_append (pat l r : List Char) (h : hasSubList pat l = true) :
    hasSubList pat (l ++ r) = true := by
  induction l with
  | nil =>
    simp [hasSubList] at h
    subst h
    exact hasSubList_nil_pat r
  | cons c t ih =>
    simp only [hasSubList, Bool.or_eq_true] at h
    rcases h with h | h
    · have hp : pat <+: c :: t := List.isPrefixOf_iff_prefix.mp h
      have hp2 : pat.isPrefixOf (c :: t ++ r) = true :=
        List.isPrefixOf_iff_prefix.mpr (hp.trans ((c :: t).prefix_append r))
      simp only [List.cons_append, hasSubList, Bool.or_eq_true]
      exact Or.inl (by simpa using hp2)
    · simp only [List.cons_append, hasSubList, Bool.or_eq_true]
      exact Or.inr (by simpa using ih h)

theorem strContains_append_left {a pat : String} (b : String)
    (h : strContains a pat = true) : strContains (a ++ b) pat = true := by
  unfold strContains at h ⊢
  rw [strData_append]
  exact hasSubList_append _ _ _ h

theorem hasSubList_of_prefix (pat l : List Char) (h : pat.isPrefixOf l = true) :
    hasSubList pat l = true := by
  cases l with
  | nil =>
    have hp : pat = [] := by
      cases pat with
      | nil => rfl
      | cons x xs => simp [List.isPrefixOf] at h
    subst hp
    rfl
  | cons c t => simp [hasSubList, h]

theorem hasSubList_append_right (pat l r : List Char) (h : hasSubList pat r = true) :
    hasSubList pat (l ++ r) = true := by
  induction l with
  | nil => simpa using h
  | cons c t ih =>
    simp only [List.cons_append, hasSubList, Bool.or_eq_true]
    exact Or.inr ih

theorem strContains_append_right {b pat : String} (a : String)
    (h : strContains b pat = true) : strContains (a ++ b) pat = true := by
  unfold strContains at h ⊢
  rw [strData_append]
  exact hasSubList_append_right _ _ _ h

theorem strContains_self_head (pat c : String) : strContains (pat ++ c) pat = true := by
  unfold strContains
  rw [strData_append]
  exact hasSubList_of_prefix _ _
    (List.isPrefixOf_iff_prefix.mpr (List.prefix_append _ _))

theorem strLength_append (a b : String) : (a ++ b).length = a.length + b.length :=
  List.length_append a.data b.data

theorem toHex8_length (n : Nat) : (toHex8 n).length = 8 := rfl

theorem startsWith_append_drop {s pat : String} (h : strStartsWith s pat = true) :
    pat ++ strDrop s pat.length = s := by
  apply String.ext
  rw [strData_append]
  have hp : pat.data <+: s.data := List.isPrefixOf_iff_prefix.mp h
  have ht : pat.data = s.data.take pat.data.length := List.prefix_iff_eq_take.mp hp
  show pat.data ++ s.data.drop pat.data.length = s.data
  nth_rewrite 1 [ht]
  exact List.take_append_drop _ _

theorem startsWith_drop_empty {s pat : String} (h : strStartsWith s pat = true)
    (h2 : strDrop s pat.length = "") : s = pat := by
  have := startsWith_append_drop h
  rw [h2] at this
  apply String.ext
  have hd : (pat ++ "").data = s.data := congrArg String.data this
  rw [strData_append] at hd
  simpa using hd.symm

/-! ### DBus helper lemmas -/

theorem getStringVal_ne_empty (v : DVal) : ¬dbus.getStringVal v = some "" := by
  cases v with
  | str s =>
    simp only [dbus.getStringVal]
    by_cases h : s.length > 0
    · simp only [h, if_true, Option.some.injEq]
      intro he
      subst he
      exact absurd h (by decide)
    · simp [h]
  | int32 n => simp [dbus.getStringVal]
  | boolean b => simp [dbus.getStringVal]
  | array ty es => simp [dbus.getStringVal]
  | variant w => simp [dbus.getStringVal]
  | dictEntry a b => simp [dbus.getStringVal]

theorem applyEntry_playerName (d : MediaData) (k : String) (i : DVal) :
    (dbus.applyEntry d k i).playerName = d.playerName := by
  unfold dbus.applyEntry
  split_ifs with h1 h2 h3
  · rfl
  · rfl
  · cases i with
    | array ty elems =>
      by_cases hty : ty = DType.string
      · subst hty
        cases elems <;> rfl
      · simp [hty]
    | str s => rfl
    | int32 n => rfl
    | boolean b => rfl
    | variant w => rfl
    | dictEntry a b => rfl
  · rfl

theorem applyEntry_nonempty (d : MediaData) (k : String) (i : DVal)
    (h1 : ¬d.title = some "") (h2 : ¬d.artist = some "") (h3 : ¬d.album = some "") :
    ¬(dbus.applyEntry d k i).title = some "" ∧
    ¬(dbus.applyEntry d k i).artist = some "" ∧
    ¬(dbus.applyEntry d k i).album = some "" := by
  unfold dbus.applyEntry
  split_ifs with ht ha hr
  · exact ⟨getStringVal_ne_empty i, h2, h3⟩
  · exact ⟨h1, h2, getStringVal_ne_empty i⟩
  · cases i with
    | array ty elems =>
      by_cases hty : ty = DType.string
      · subst hty
        cases elems with
        | nil => exact ⟨h1, by simp, h3⟩
        | cons w ws => exact ⟨h1, getStringVal_ne_empty w, h3⟩
      · simp only [hty]
        simp [hty]
        exact ⟨h1, h2, h3⟩
    | str s => exact ⟨h1, h2, h3⟩
    | int32 n => exact ⟨h1, h2, h3⟩
    | boolean b => exact ⟨h1, h2, h3⟩
    | variant w => exact ⟨h1, h2, h3⟩
    | dictEntry a b => exact ⟨h1, h2, h3⟩
  · exact ⟨h1, h2, h3⟩

theorem metadataLoop_playerName (l : List DVal) :
    ∀ d : MediaData, (dbus.metadataLoop l d).playerName = d.playerName := by
  induction l with
  | nil => intro d; rfl
  | cons e rest ih =>
    intro d
    cases e with
    | dictEntry k v =>
      rcases hk : dbus.getStringVal k with _ | key
      · simp only [dbus.metadataLoop, hk]
        exact ih d
      · cases v with
        | variant inner =>
          simp only [dbus.metadataLoop, hk]
          rw [ih (dbus.applyEntry d key inner)]
          exact applyEntry_playerName d key inner
        | str s => simp only [dbus.metadataLoop, hk]; exact ih d
        | int32 n => simp only [dbus.metadataLoop, hk]; exact ih d
        | boolean b => simp only [dbus.metadataLoop, hk]; exact ih d
        | array ty es => simp only [dbus.metadataLoop, hk]; exact ih d
        | dictEntry a b => simp only [dbus.metadataLoop, hk]; exact ih d
    | str s => rfl
    | int32 n => rfl
    | boolean b => rfl
    | array ty es => rfl
    | variant w => rfl

theorem metadataLoop_nonempty (l : List DVal) :
    ∀ d : MediaData,
      ¬d.title = some "" → ¬d.artist = some "" → ¬d.album = some "" →
      ¬(dbus.metadataLoop l d).title = some "" ∧
      ¬(dbus.metadataLoop l d).artist = some "" ∧
      ¬(dbus.metadataLoop l d).album = some "" := by
  induction l with
  | nil => intro d h1 h2 h3; exact ⟨h1, h2, h3⟩
  | cons e rest ih =>
    intro d h1 h2 h3
    cases e with
    | dictEntry k v =>
      rcases hk : dbus.getStringVal k with _ | key
      · simp only [dbus.metadataLoop, hk]
        exact ih d h1 h2 h3
      · cases v with
        | variant inner =>
          simp only [dbus.metadataLoop, hk]
          obtain ⟨g1, g2, g3⟩ := applyEntry_nonempty d key inner h1 h2 h3
          exact ih (dbus.applyEntry d key inner) g1 g2 g3
        | str s => simp only [dbus.metadataLoop, hk]; exact ih d h1 h2 h3
        | int32 n => simp only [dbus.metadataLoop, hk]; exact ih d h1 h2 h3
        | boolean b => simp only [dbus.metadataLoop, hk]; exact ih d h1 h2 h3
        | array ty es => simp only [dbus.metadataLoop, hk]; exact ih d h1 h2 h3
        | dictEntry a b => simp only [dbus.metadataLoop, hk]; exact ih d h1 h2 h3
    | str s => exact ⟨h1, h2, h3⟩
    | int32 n => exact ⟨h1, h2, h3⟩
    | boolean b => exact ⟨h1, h2, h3⟩
    | array ty es => exact ⟨h1, h2, h3⟩
    | variant w => exact ⟨h1, h2, h3⟩

theorem metadataLoop_skip (k v : DVal) (rest : List DVal) (d : MediaData)
    (h : dbus.getStringVal k = none ∨ dbus.isVariantB v = false) :
    dbus.metadataLoop (DVal.dictEntry k v :: rest) d = dbus.metadataLoop rest d := by
  rcases h with h | h
  · simp only [dbus.metadataLoop, h]
  · rcases hk : dbus.getStringVal k with _ | key
    · simp only [dbus.metadataLoop, hk]
    · cases v with
      | variant inner => exact absurd h (by simp [dbus.isVariantB])
      | str s => simp only [dbus.metadataLoop, hk]
      | int32 n => simp only [dbus.metadataLoop, hk]
      | boolean b => simp only [dbus.metadataLoop, hk]
      | array ty es => simp only [dbus.metadataLoop, hk]
      | dictEntry a b => simp only [dbus.metadataLoop, hk]

theorem findPlayerLoop_some (l : List DVal) :
    ∀ p : String, dbus.findPlayerLoop l = some p →
      strStartsWith p dbus.mprisPrefixVal = true := by
  induction l with
  | nil => intro p h; exact absurd h (by simp [dbus.findPlayerLoop])
  | cons v rest ih =>
    intro p h
    rcases hv : dbus.getStringVal v with _ | name
    · simp only [dbus.findPlayerLoop, hv] at h
      exact ih p h
    · simp only [dbus.findPlayerLoop, hv] at h
      by_cases hs : strStartsWith name dbus.mprisPrefixVal = true
      · rw [if_pos hs] at h
        obtain rfl : name = p := Option.some.inj h
        exact hs
      · rw [if_neg hs] at h
        exact ih p h

theorem startsWith_mpris_pos {s : String}
    (h : strStartsWith s dbus.mprisPrefixVal = true) : s.length > 0 := by
  have hp : dbus.mprisPrefixVal.data <+: s.data := List.isPrefixOf_iff_prefix.mp h
  have hle : dbus.mprisPrefixVal.data.length ≤ s.data.length := hp.length_le
  have h23 : dbus.mprisPrefixVal.data.length = 23 := by decide
  have : 23 ≤ s.data.length := h23 ▸ hle
  show 0 < s.data.length
  omega

theorem findPlayerLoop_map (names : List String) :
    dbus.findPlayerLoop (names.map DVal.str) =
      names.find? (fun s => strStartsWith s dbus.mprisPrefixVal) := by
  induction names with
  | nil => rfl
  | cons s rest ih =>
    by_cases hs : strStartsWith s dbus.mprisPrefixVal = true
    · have hl : s.length > 0 := startsWith_mpris_pos hs
      simp only [List.map, dbus.findPlayerLoop, dbus.getStringVal, hl, if_true, hs,
        List.find?, if_pos]
    · have hs2 : strStartsWith s dbus.mprisPrefixVal = false := by
        simpa using hs
      by_cases hl : s.length > 0
      · simp [List.map, dbus.findPlayerLoop, dbus.getStringVal, hl, hs2, ih, List.find?]
      · have hempty : s = "" := str_of_length_zero (by omega)
        subst hempty
        simp [List.map, dbus.findPlayerLoop, dbus.getStringVal, hs2, ih, List.find?]

theorem listNamesPlayer_ok_startsWith {ln : List DVal} {p : String}
    (h : dbus.listNamesPlayer ln = .ok p) :
    strStartsWith p dbus.mprisPrefixVal = true := by
  simp only [dbus.listNamesPlayer] at h
  by_cases h1 : (iterInit ln).valid = false ∨ ¬(iterInit ln).getArgType = DType.array
  · rw [if_pos h1] at h
    exact absurd h (by simp)
  · rw [if_neg h1] at h
    by_cases h2 : (iterInit ln).recurse.valid = false
    · rw [if_pos h2] at h
      exact absurd h (by simp)
    · rw [if_neg h2] at h
      rcases hf : dbus.findPlayerLoop (iterInit ln).recurse.rest with _ | name
      · rw [hf] at h
        exact absurd h (by simp)
      · rw [hf] at h
        obtain rfl : name = p := Except.ok.inj h
        exact findPlayerLoop_some _ _ hf

theorem listNamesPlayer_strings (names : List String) :
    dbus.listNamesPlayer [DVal.array DType.string (names.map DVal.str)] =
      match names.find? (fun s => strStartsWith s dbus.mprisPrefixVal) with
      | some n => .ok n
      | none => .error ⟨.NotFound, "No active MPRIS players found"⟩ := by
  have hred : dbus.listNamesPlayer [DVal.array DType.string (names.map DVal.str)] =
      match dbus.findPlayerLoop (names.map DVal.str) with
      | some n => .ok n
      | none => .error ⟨.NotFound, "No active MPRIS players found"⟩ := rfl
  rw [hred, findPlayerLoop_map]

theorem fetch_eq_parse {ln : List DVal} {p : String}
    (h : dbus.listNamesPlayer ln = .ok p) (meta : List DVal) :
    dbus.fetchNowPlaying ln meta =
      dbus.parseMetadata meta ⟨none, none, none, some (dbus.extractPlayerName p)⟩ := by
  unfold dbus.fetchNowPlaying
  rw [h]

theorem fetch_eq_error {ln : List DVal} {e : DracError}
    (h : dbus.listNamesPlayer ln = .error e) (meta : List DVal) :
    dbus.fetchNowPlaying ln meta = .error e := by
  unfold dbus.fetchNowPlaying
  rw [h]

theorem fetch_ok_cases {ln meta : List DVal} {d : MediaData}
    (h : dbus.fetchNowPlaying ln meta = .ok d) :
    ∃ p, dbus.listNamesPlayer ln = .ok p ∧
      dbus.parseMetadata meta ⟨none, none, none, some (dbus.extractPlayerName p)⟩ = .ok d := by
  unfold dbus.fetchNowPlaying at h
  rcases hl : dbus.listNamesPlayer ln with e | p
  · rw [hl] at h
    exact absurd h (by simp)
  · rw [hl] at h
    exact ⟨p, rfl, h⟩

theorem parseMetadata_ok_form {reply : List DVal} {d0 d : MediaData}
    (h : dbus.parseMetadata reply d0 = .ok d) :
    ∃ l, d = dbus.metadataLoop l d0 := by
  simp only [dbus.parseMetadata] at h
  split_ifs at h
  all_goals
    first
    | exact absurd h (fun hh => Except.noConfusion hh)
    | exact ⟨_, (Except.ok.inj h).symm⟩

theorem parseMetadata_ok_playerName {reply : List DVal} {d0 d : MediaData}
    (h : dbus.parseMetadata reply d0 = .ok d) :
    d.playerName = d0.playerName := by
  obtain ⟨l, rfl⟩ := parseMetadata_ok_form h
  exact metadataLoop_playerName l d0

theorem parseMetadata_badShape (reply : List DVal) (d0 : MediaData)
    (h : dbus.goodShapeB reply = false) :
    ∃ m, dbus.parseMetadata reply d0 = .error ⟨.ParseError, m⟩ := by
  cases reply with
  | nil => exact ⟨_, rfl⟩
  | cons v rest =>
    cases v with
    | variant inner =>
      cases inner with
      | array ty elems =>
        cases ty with
        | dictEntry => exact absurd h (by simp [dbus.goodShapeB])
        | invalid => exact ⟨_, rfl⟩
        | string => exact ⟨_, rfl⟩
        | int32 => exact ⟨_, rfl⟩
        | boolean => exact ⟨_, rfl⟩
        | array => exact ⟨_, rfl⟩
        | variant => exact ⟨_, rfl⟩
      | str s => exact ⟨_, rfl⟩
      | int32 n => exact ⟨_, rfl⟩
      | boolean b => exact ⟨_, rfl⟩
      | variant w => exact ⟨_, rfl⟩
      | dictEntry a b => exact ⟨_, rfl⟩
    | str s => exact ⟨_, rfl⟩
    | int32 n => exact ⟨_, rfl⟩
    | boolean b => exact ⟨_, rfl⟩
    | array ty es => exact ⟨_, rfl⟩
    | dictEntry a b => exact ⟨_, rfl⟩

/-! ### Windows backend helper lemmas -/

theorem readProp_ne_empty (conv : npsm.Utf8Conv) (p : npsm.PropVariantRes) :
    ¬npsm.readProp conv p = some "" := by
  unfold npsm.readProp
  rcases hw : p.pwszVal with _ | w
  · simp
  · split_ifs with hc
    · rcases hcv : npsm.ConvertWStringToUTF8 conv w with e | s
      · simp [hcv]
      · simp only [hcv]
        by_cases hl : s.length > 0
        · simp only [hl, if_true, Option.some.injEq]
          intro he
          subst he
          exact absurd hl (by decide)
        · simp [hl]
    · simp

theorem propLookupBad_none (conv : npsm.Utf8Conv) (p : npsm.PropVariantRes)
    (h : npsm.propLookupBad p = true) : npsm.readProp conv p = none := by
  rcases hw : p.pwszVal with _ | w
  · simp [npsm.readProp, hw]
  · simp only [npsm.propLookupBad, hw, Option.isNone_some, Bool.or_false, Bool.or_eq_true,
      Bool.not_eq_true'] at h
    simp only [npsm.readProp, hw]
    rw [if_neg]
    rintro ⟨hhr, hvt⟩
    rcases h with h | h
    · rw [h] at hhr
      exact Bool.noConfusion hhr
    · rw [h] at hvt
      exact Bool.noConfusion hvt

theorem FetchNowPlaying_ok_form {env : npsm.WinEnv} {d : MediaData}
    (h : npsm.FetchNowPlaying env = .ok d) : d = npsm.readProps env := by
  simp only [npsm.FetchNowPlaying] at h
  split_ifs at h <;>
    first
    | exact absurd h (fun hh => Except.noConfusion hh)
    | exact (Except.ok.inj h).symm

theorem negotiationOk_ok (env : npsm.WinEnv) (h : npsm.negotiationOk env = true) :
    npsm.FetchNowPlaying env = .ok (npsm.readProps env) := by
  unfold npsm.negotiationOk at h
  by_cases h2 : npsm.hrFailed env.asDataSource2Hr
  · rw [if_pos h2] at h
    simp only [Bool.and_eq_true, Bool.not_eq_true'] at h
    obtain ⟨⟨⟨⟨hco, hcs, hobj⟩, hses⟩, hact, hactobj⟩, hds, hmoi, hmoiobj⟩ := h
    simp only [npsm.FetchNowPlaying, hco, hcs, hobj, hses, hact, hactobj, h2, hds, hmoi,
      hmoiobj]
    simp
  · rw [if_neg h2] at h
    simp only [Bool.and_eq_true, Bool.not_eq_true'] at h
    obtain ⟨⟨⟨⟨hco, hcs, hobj⟩, hses⟩, hact, hactobj⟩, hmoi, hmoiobj⟩ := h
    have h2f : npsm.hrFailed env.asDataSource2Hr = false := by
      simpa using h2
    simp only [npsm.FetchNowPlaying, hco, hcs, hobj, hses, hact, hactobj, h2f, hmoi,
      hmoiobj]
    simp

theorem FetchNowPlaying_error_classified (env : npsm.WinEnv) (e : DracError)
    (h : npsm.FetchNowPlaying env = .error e) :
    (e.code = DracErrorCode.ApiUnavailable ∨ e.code = DracErrorCode.NotFound)
    ∧ (e.message = "Failed to get media object info" →
        npsm.preNegotiationOk env = true ∧ npsm.mediaObjectInfoFailed env = true)
    ∧ (¬e.message = "Failed to get media object info" →
        ∃ hr, strContains e.message (toHex8 hr) = true
          ∧ (hr = env.coCreateHr ∨ hr = env.currentSession.hr ∨ hr = env.asSessionHr
             ∨ hr = env.activateSource.hr ∨ hr = env.asDataSourceHr)) := by
  simp only [npsm.FetchNowPlaying] at h
  by_cases b1 : npsm.hrFailed env.coCreateHr = true
  · rw [if_pos b1] at h
    injection h with h2
    subst h2
    refine ⟨Or.inl rfl, fun heq => ?_, fun hne =>
      ⟨env.coCreateHr, strContains_append_right _ (strContains_self_head _ _), Or.inl rfl⟩⟩
    have hl := congrArg String.length heq
    rw [strLength_append, strLength_append, toHex8_length] at hl
    exact absurd hl (by decide)
  · rw [if_neg b1] at h
    by_cases b2 : npsm.hrFailed env.currentSession.hr = true ∨ env.currentSession.obj = false
    · rw [if_pos b2] at h
      injection h with h2
      subst h2
      refine ⟨Or.inr rfl, fun heq => ?_, fun hne =>
        ⟨env.currentSession.hr, strContains_append_right _ (strContains_self_head _ _),
         Or.inr (Or.inl rfl)⟩⟩
      have hl := congrArg String.length heq
      rw [strLength_append, strLength_append, strLength_append, strLength_append,
        toHex8_length] at hl
      rw [show ("No media session found (HRESULT: 0x" : String).length = 35 from rfl,
        show (", sessionCount=" : String).length = 15 from rfl,
        show (")" : String).length = 1 from rfl,
        show ("Failed to get media object info" : String).length = 31 from rfl] at hl
      omega
    · rw [if_neg b2] at h
      by_cases b3 : npsm.hrFailed env.asSessionHr = true
      · rw [if_pos b3] at h
        injection h with h2
        subst h2
        refine ⟨Or.inl rfl, fun heq => ?_, fun hne =>
          ⟨env.asSessionHr, strContains_append_right _ (strContains_self_head _ _),
           Or.inr (Or.inr (Or.inl rfl))⟩⟩
        have hl := congrArg String.length heq
        rw [strLength_append, strLength_append, toHex8_length] at hl
        exact absurd hl (by decide)
      · rw [if_neg b3] at h
        by_cases b4 : npsm.hrFailed env.activateSource.hr = true ∨ env.activateSource.obj = false
        · rw [if_pos b4] at h
          injection h with h2
          subst h2
          refine ⟨Or.inl rfl, fun heq => ?_, fun hne =>
            ⟨env.activateSource.hr, strContains_append_right _ (strContains_self_head _ _),
             Or.inr (Or.inr (Or.inr (Or.inl rfl)))⟩⟩
          have hl := congrArg String.length heq
          rw [strLength_append, strLength_append, toHex8_length] at hl
          exact absurd hl (by decide)
        · rw [if_neg b4] at h
          have c1 : npsm.hrFailed env.coCreateHr = false := by simpa using b1
          have c2 := not_or.mp b2
          have c2a : npsm.hrFailed env.currentSession.hr = false := by simpa using c2.1
          have c2b : env.currentSession.obj = true := by simpa using c2.2
          have c3 : npsm.hrFailed env.asSessionHr = false := by simpa using b3
          have c4 := not_or.mp b4
          have c4a : npsm.hrFailed env.activateSource.hr = false := by simpa using c4.1
          have c4b : env.activateSource.obj = true := by simpa using c4.2
          have hpre : npsm.preNegotiationOk env = true := by
            simp [npsm.preNegotiationOk, c1, c2a, c2b, c3, c4a, c4b]
          by_cases b5 : npsm.hrFailed env.asDataSource2Hr = false
          · rw [if_pos b5] at h
            by_cases b6 : npsm.hrFailed env.mediaObjectInfo2.hr = true
                ∨ env.mediaObjectInfo2.obj = false
            · rw [if_pos b6] at h
              injection h with h2
              subst h2
              refine ⟨Or.inl rfl, fun heq => ⟨hpre, ?_⟩, fun hne => absurd rfl hne⟩
              simp only [npsm.mediaObjectInfoFailed, b5, Bool.false_eq_true, if_false]
              rcases b6 with hb | hb <;> simp [hb]
            · rw [if_neg b6] at h
              exact absurd h (fun hh => Except.noConfusion hh)
          · rw [if_neg b5] at h
            have h5t : npsm.hrFailed env.asDataSource2Hr = true := by simpa using b5
            by_cases b6 : npsm.hrFailed env.asDataSourceHr = true
            · rw [if_pos b6] at h
              injection h with h2
              subst h2
              refine ⟨Or.inl rfl, fun heq => ?_, fun hne =>
                ⟨env.asDataSourceHr, strContains_append_right _ (strContains_self_head _ _),
                 Or.inr (Or.inr (Or.inr (Or.inr rfl)))⟩⟩
              have hl := congrArg String.length heq
              rw [strLength_append, strLength_append, toHex8_length] at hl
              exact absurd hl (by decide)
            · rw [if_neg b6] at h
              have h6f : npsm.hrFailed env.asDataSourceHr = false := by simpa using b6
              by_cases b7 : npsm.hrFailed env.mediaObjectInfo.hr = true
                  ∨ env.mediaObjectInfo.obj = false
              · rw [if_pos b7] at h
                injection h with h2
                subst h2
                refine ⟨Or.inl rfl, fun heq => ⟨hpre, ?_⟩, fun hne => absurd rfl hne⟩
                simp only [npsm.mediaObjectInfoFailed, h5t, if_true]
                rw [h6f]
                rcases b7 with hb | hb <;> simp [hb]
              · rw [if_neg b7] at h
                exact absurd h (fun hh => Except.noConfusion hh)

/-- The conditional field assignment never produces a present empty
string. -/
theorem optNonempty_ne_empty (s : String) : ¬macos.optNonempty s = some "" := by
  unfold macos.optNonempty
  split_ifs with h
  · simp
  · simpa using h

/-! ### Plugin adapter helper lemma -/

theorem collect_stable (st : PluginState) (fr : Except DracError MediaData) :
    collectData (collectData st fr).1 fr = collectData st fr := by
  rcases st with ⟨d0, le, r, en⟩
  cases r
  · rfl
  · cases en
    · rfl
    · cases fr
      · rfl
      · rfl

/-! ### Claim theorems -/

/-- C1: with a `ListNames` reply containing exactly the bus name
`org.mpris.MediaPlayer2.Foo` and a `Properties.Get` reply that is a
variant wrapping a dict-entry array carrying `xesam:title="Song"`,
`xesam:artist=["Band"]` and `xesam:album="Rec"`, the DBus backend's
`fetchNowPlaying` succeeds with title `Song`, artist `Band`, album `Rec`
and player name `Foo`. -/
theorem dbus_happy_path_foo :
    dbus.fetchNowPlaying
      [DVal.array DType.string [DVal.str "org.mpris.MediaPlayer2.Foo"]]
      [DVal.variant (DVal.array DType.dictEntry
        [DVal.dictEntry (DVal.str "xesam:title") (DVal.variant (DVal.str "Song")),
         DVal.dictEntry (DVal.str "xesam:artist")
           (DVal.variant (DVal.array DType.string [DVal.str "Band"])),
         DVal.dictEntry (DVal.str "xesam:album") (DVal.variant (DVal.str "Rec"))])]
      = .ok ⟨some "Song", some "Band", some "Rec", some "Foo"⟩ := rfl

/-- C5: `extractPlayerName` is the identity on bus names that do not
start with the MPRIS prefix, and removes exactly that prefix (prepending
the prefix to the result reproduces the input unchanged) on names that
do. -/
theorem extractPlayerName_spec :
    ∀ s : String,
      (strStartsWith s dbus.mprisPrefixVal = false → dbus.extractPlayerName s = s)
      ∧ (strStartsWith s dbus.mprisPrefixVal = true →
          dbus.mprisPrefixVal ++ dbus.extractPlayerName s = s) := by
  intro s
  constructor
  · intro h
    unfold dbus.extractPlayerName
    rw [if_neg (by simp [h])]
  · intro h
    unfold dbus.extractPlayerName
    rw [if_pos h]
    exact startsWith_append_drop h

/-- Witness for C5 at the concrete names `spotify` (no prefix) and
`org.mpris.MediaPlayer2.Spotify` (prefixed). -/
theorem extractPlayerName_spec_witness :
    dbus.extractPlayerName "spotify" = "spotify"
    ∧ dbus.mprisPrefixVal ++ dbus.extractPlayerName "org.mpris.MediaPlayer2.Spotify"
        = "org.mpris.MediaPlayer2.Spotify" :=
  ⟨(extractPlayerName_spec "spotify").1 (by decide),
   (extractPlayerName_spec "org.mpris.MediaPlayer2.Spotify").2 (by decide)⟩

/-- C10: `ConvertWStringToUTF8` maps the empty wide string to a
successful empty UTF-8 string for every conversion oracle (so without
consulting the two-call protocol at all), and every `InternalError`
return arises from a non-empty input. -/
theorem convert_empty_wstring :
    (∀ conv : npsm.Utf8Conv, npsm.ConvertWStringToUTF8 conv [] = .ok "")
    ∧ (∀ (conv : npsm.Utf8Conv) (wstr : List Nat) (e : DracError),
        npsm.ConvertWStringToUTF8 conv wstr = .error e → ¬wstr = []) := by
  constructor
  · intro conv
    rfl
  · intro conv wstr e h hw
    subst hw
    exact Except.noConfusion h

/-- Witness for C10: the zero-size oracle still converts the empty wide
string successfully, and a concrete failing conversion has non-empty
input. -/
theorem convert_empty_wstring_witness :
    npsm.ConvertWStringToUTF8 convZero [] = .ok ""
    ∧ ¬([65] : List Nat) = [] :=
  ⟨convert_empty_wstring.1 convZero,
   convert_empty_wstring.2 convZero [65]
     ⟨.InternalError, "Failed to get buffer size for UTF-8 conversion. Error code: 7"⟩
     (by decide)⟩

/-- C9: one poll is a pure function of the native replies, and the
plugin's `collectData` step carries no state that influences a second
poll: running `collectData` twice against the same fetch outcome yields
the same state and result as running it once, and in particular two
value-equal `MediaData` records. -/
theorem fetch_idempotent :
    ∀ (ln meta : List DVal) (st : PluginState),
      dbus.fetchNowPlaying ln meta = dbus.fetchNowPlaying ln meta
      ∧ collectData (collectData st (dbus.fetchNowPlaying ln meta)).1
          (dbus.fetchNowPlaying ln meta)
          = collectData st (dbus.fetchNowPlaying ln meta)
      ∧ (collectData (collectData st (dbus.fetchNowPlaying ln meta)).1
           (dbus.fetchNowPlaying ln meta)).1.m_data
          = (collectData st (dbus.fetchNowPlaying ln meta)).1.m_data :=
  fun ln meta st =>
    ⟨rfl, collect_stable st _,
     by rw [collect_stable st (dbus.fetchNowPlaying ln meta)]⟩

theorem parseMetadata_goodShape (es : List DVal) (d : MediaData) :
    dbus.parseMetadata [DVal.variant (DVal.array DType.dictEntry es)] d
      = .ok (dbus.metadataLoop es d) := rfl

/-- C3: a `Properties.Get` reply whose top-level shape is not a variant
wrapping a dict-entry array makes the DBus backend fail with
`ParseError` (whatever is nested deeper), while a dictionary entry with
a bad sub-shape (key not a non-empty string, or value not a variant) is
skipped: the fetch behaves exactly as if that entry were absent. -/
theorem dbus_metadata_shape :
    (∀ (ln : List DVal) (p : String) (meta : List DVal),
      dbus.listNamesPlayer ln = .ok p →
      dbus.goodShapeB meta = false →
      ∃ m, dbus.fetchNowPlaying ln meta = .error ⟨.ParseError, m⟩)
    ∧ (∀ (k v : DVal) (entries ln : List DVal),
        (dbus.getStringVal k = none ∨ dbus.isVariantB v = false) →
        dbus.fetchNowPlaying ln
            [DVal.variant (DVal.array DType.dictEntry (DVal.dictEntry k v :: entries))]
          = dbus.fetchNowPlaying ln
            [DVal.variant (DVal.array DType.dictEntry entries)]) := by
  constructor
  · intro ln p meta hok hbad
    rw [fetch_eq_parse hok meta]
    exact parseMetadata_badShape meta _ hbad
  · intro k v entries ln hskip
    rcases hl : dbus.listNamesPlayer ln with e | p
    · rw [fetch_eq_error hl, fetch_eq_error hl]
    · rw [fetch_eq_parse hl, fetch_eq_parse hl, parseMetadata_goodShape,
        parseMetadata_goodShape, metadataLoop_skip k v entries _ hskip]

/-- Witness for C3: a reply whose only argument is a bare string is
rejected with `ParseError`, and a dictionary entry with a non-string key
is skipped without affecting the result. -/
theorem dbus_metadata_shape_witness :
    (∃ m, dbus.fetchNowPlaying
        [DVal.array DType.string [DVal.str "org.mpris.MediaPlayer2.Foo"]]
        [DVal.str "x"] = .error ⟨.ParseError, m⟩)
    ∧ dbus.fetchNowPlaying
        [DVal.array DType.string [DVal.str "org.mpris.MediaPlayer2.Foo"]]
        [DVal.variant (DVal.array DType.dictEntry
          [DVal.dictEntry (DVal.int32 7) (DVal.str "y")])]
      = dbus.fetchNowPlaying
        [DVal.array DType.string [DVal.str "org.mpris.MediaPlayer2.Foo"]]
        [DVal.variant (DVal.array DType.dictEntry [])] :=
  ⟨dbus_metadata_shape.1 _ "org.mpris.MediaPlayer2.Foo" _ (by decide) (by decide),
   dbus_metadata_shape.2 (DVal.int32 7) (DVal.str "y") [] _ (Or.inl (by decide))⟩

/-- C6: on a `ListNames` reply carrying a list of bus-name strings, the
DBus backend selects the first name (in list order) carrying the MPRIS
prefix — any success reports exactly that name's stripped form as the
player name — and returns `NotFound` when no name carries the prefix. -/
theorem dbus_first_match_selection :
    ∀ (names : List String) (meta : List DVal),
      (names.find? (fun s => strStartsWith s dbus.mprisPrefixVal) = none →
        dbus.fetchNowPlaying [DVal.array DType.string (names.map DVal.str)] meta =
          .error ⟨.NotFound, "No active MPRIS players found"⟩)
      ∧ (∀ n, names.find? (fun s => strStartsWith s dbus.mprisPrefixVal) = some n →
          ∀ d, dbus.fetchNowPlaying [DVal.array DType.string (names.map DVal.str)] meta
              = .ok d →
            d.playerName = some (dbus.extractPlayerName n)) := by
  intro names meta
  constructor
  · intro hnone
    have hl : dbus.listNamesPlayer [DVal.array DType.string (names.map DVal.str)] =
        .error ⟨.NotFound, "No active MPRIS players found"⟩ := by
      rw [listNamesPlayer_strings, hnone]
    exact fetch_eq_error hl meta
  · intro n hsome d hd
    have hl : dbus.listNamesPlayer [DVal.array DType.string (names.map DVal.str)]
        = .ok n := by
      rw [listNamesPlayer_strings, hsome]
    rw [fetch_eq_parse hl meta] at hd
    exact parseMetadata_ok_playerName hd

/-- Witness for C6: no MPRIS name in the list gives `NotFound`; with two
MPRIS names present the first one (`…A`) is the reported player. -/
theorem dbus_first_match_selection_witness :
    dbus.fetchNowPlaying [DVal.array DType.string (["x"].map DVal.str)] [DVal.str "x"] =
      .error ⟨.NotFound, "No active MPRIS players found"⟩
    ∧ (⟨none, none, none, some "A"⟩ : MediaData).playerName =
        some (dbus.extractPlayerName "org.mpris.MediaPlayer2.A") :=
  ⟨(dbus_first_match_selection ["x"] [DVal.str "x"]).1 (by decide),
   (dbus_first_match_selection ["foo", "org.mpris.MediaPlayer2.A", "org.mpris.MediaPlayer2.B"]
      [DVal.variant (DVal.array DType.dictEntry [])]).2
     "org.mpris.MediaPlayer2.A" (by decide)
     ⟨none, none, none, some "A"⟩ (by decide)⟩

/-- C7: in the macOS subprocess fallback, a captured output that is
empty, `null` or `null` plus newline yields `NotFound`; a parsed record
with empty title yields `NotFound`; and a parsed record with non-empty
title succeeds with the title set and artist/album present exactly when
their parsed values are non-empty. -/
theorem macos_media_control_spec :
    ∀ (p0 output : String) (parsed : Option macos.MediaControlOutput),
      ((output = "" ∨ output = "null\n" ∨ output = "null") →
        macos.fetchViaMediaControl (some p0) true output parsed =
          .error ⟨.NotFound, "No media is currently playing"⟩)
      ∧ (∀ mc, parsed = some mc →
          ¬(output = "" ∨ output = "null\n" ∨ output = "null") →
          ((mc.title = "" →
            macos.fetchViaMediaControl (some p0) true output parsed =
              .error ⟨.NotFound, "No media is currently playing"⟩)
          ∧ (¬mc.title = "" →
            macos.fetchViaMediaControl (some p0) true output parsed =
              .ok ⟨some mc.title, macos.optNonempty mc.artist,
                   macos.optNonempty mc.album, none⟩))) := by
  intro p0 output parsed
  constructor
  · intro hout
    simp [macos.fetchViaMediaControl, hout]
  · intro mc hmc hout
    constructor
    · intro ht
      simp [macos.fetchViaMediaControl, hout, hmc, ht]
    · intro ht
      simp [macos.fetchViaMediaControl, hout, hmc, ht]

/-- Witness for C7: the literal `null` plus newline output maps to
`NotFound`, and the spec's example record (empty album) yields title and
artist only. -/
theorem macos_media_control_spec_witness :
    macos.fetchViaMediaControl (some "/opt/homebrew/bin/media-control") true "null\n" none =
      .error ⟨.NotFound, "No media is currently playing"⟩
    ∧ macos.fetchViaMediaControl (some "/opt/homebrew/bin/media-control") true
        "\x7b\"title\":\"Song\",\"artist\":\"Band\",\"album\":\"\",\"playing\":true\x7d"
        (some ⟨"Song", "Band", "", true⟩) =
      .ok ⟨some "Song", some "Band", none, none⟩ :=
  ⟨(macos_media_control_spec "/opt/homebrew/bin/media-control" "null\n" none).1
     (Or.inr (Or.inl rfl)),
   ((macos_media_control_spec "/opt/homebrew/bin/media-control"
       "\x7b\"title\":\"Song\",\"artist\":\"Band\",\"album\":\"\",\"playing\":true\x7d"
       (some ⟨"Song", "Band", "", true⟩)).2
     ⟨"Song", "Band", "", true⟩ rfl (by decide)).2 (by decide)⟩

/-- C2 (amended): every failure of the Windows negotiation chain before
the property store is obtained carries code `ApiUnavailable` or
`NotFound`, and each failing step produces exactly its branch's error,
whose message embeds the formatted HRESULT actually returned by that
step — except the final version-negotiated `GetMediaObjectInfo` /
null-property-store failure, which is the only branch producing the
fixed text `Failed to get media object info` without a status code. -/
theorem npsm_error_chain_amended :
    ∀ env : npsm.WinEnv,
      (npsm.hrFailed env.coCreateHr = true →
        npsm.FetchNowPlaying env = .error ⟨.ApiUnavailable, npsm.msgCoCreate env⟩
        ∧ strContains (npsm.msgCoCreate env) (toHex8 env.coCreateHr) = true)
      ∧ (npsm.hrFailed env.coCreateHr = false →
          (npsm.hrFailed env.currentSession.hr = true ∨ env.currentSession.obj = false) →
        npsm.FetchNowPlaying env = .error ⟨.NotFound, npsm.msgNoSession env⟩
        ∧ strContains (npsm.msgNoSession env) (toHex8 env.currentSession.hr) = true)
      ∧ (npsm.hrFailed env.coCreateHr = false →
          npsm.hrFailed env.currentSession.hr = false → env.currentSession.obj = true →
          npsm.hrFailed env.asSessionHr = true →
        npsm.FetchNowPlaying env = .error ⟨.ApiUnavailable, npsm.msgAsSession env⟩
        ∧ strContains (npsm.msgAsSession env) (toHex8 env.asSessionHr) = true)
      ∧ (npsm.hrFailed env.coCreateHr = false →
          npsm.hrFailed env.currentSession.hr = false → env.currentSession.obj = true →
          npsm.hrFailed env.asSessionHr = false →
          (npsm.hrFailed env.activateSource.hr = true ∨ env.activateSource.obj = false) →
        npsm.FetchNowPlaying env = .error ⟨.ApiUnavailable, npsm.msgActivate env⟩
        ∧ strContains (npsm.msgActivate env) (toHex8 env.activateSource.hr) = true)
      ∧ (npsm.preNegotiationOk env = true →
          npsm.hrFailed env.asDataSource2Hr = false →
          (npsm.hrFailed env.mediaObjectInfo2.hr = true ∨ env.mediaObjectInfo2.obj = false) →
        npsm.FetchNowPlaying env = .error ⟨.ApiUnavailable, "Failed to get media object info"⟩)
      ∧ (npsm.preNegotiationOk env = true →
          npsm.hrFailed env.asDataSource2Hr = true →
          npsm.hrFailed env.asDataSourceHr = true →
        npsm.FetchNowPlaying env = .error ⟨.ApiUnavailable, npsm.msgAsDataSource env⟩
        ∧ strContains (npsm.msgAsDataSource env) (toHex8 env.asDataSourceHr) = true)
      ∧ (npsm.preNegotiationOk env = true →
          npsm.hrFailed env.asDataSource2Hr = true →
          npsm.hrFailed env.asDataSourceHr = false →
          (npsm.hrFailed env.mediaObjectInfo.hr = true ∨ env.mediaObjectInfo.obj = false) →
        npsm.FetchNowPlaying env = .error ⟨.ApiUnavailable, "Failed to get media object info"⟩)
      ∧ (∀ e, npsm.FetchNowPlaying env = .error e →
          (e.code = DracErrorCode.ApiUnavailable ∨ e.code = DracErrorCode.NotFound)
          ∧ (e.message = "Failed to get media object info" →
              npsm.preNegotiationOk env = true ∧ npsm.mediaObjectInfoFailed env = true)
          ∧ (¬e.message = "Failed to get media object info" →
              ∃ hr, strContains e.message (toHex8 hr) = true
                ∧ (hr = env.coCreateHr ∨ hr = env.currentSession.hr ∨ hr = env.asSessionHr
                   ∨ hr = env.activateSource.hr ∨ hr = env.asDataSourceHr))) := by
  intro env
  refine ⟨?_, ?_, ?_, ?_, ?_, ?_, ?_, fun e he => FetchNowPlaying_error_classified env e he⟩
  · intro h1
    refine ⟨?_, ?_⟩
    · simp [npsm.FetchNowPlaying, npsm.msgCoCreate, h1]
    · unfold npsm.msgCoCreate
      exact strContains_append_right _ (strContains_self_head _ _)
  · intro h1 h2
    refine ⟨?_, ?_⟩
    · simp [npsm.FetchNowPlaying, npsm.msgNoSession, npsm.sessionCountVal, h1, h2]
    · unfold npsm.msgNoSession
      exact strContains_append_right _ (strContains_self_head _ _)
  · intro h1 h2a h2b h3
    refine ⟨?_, ?_⟩
    · simp [npsm.FetchNowPlaying, npsm.msgAsSession, h1, h2a, h2b, h3]
    · unfold npsm.msgAsSession
      exact strContains_append_right _ (strContains_self_head _ _)
  · intro h1 h2a h2b h3 h4
    refine ⟨?_, ?_⟩
    · simp [npsm.FetchNowPlaying, npsm.msgActivate, h1, h2a, h2b, h3, h4]
    · unfold npsm.msgActivate
      exact strContains_append_right _ (strContains_self_head _ _)
  · intro hpre h5 h6
    have hc := hpre
    simp only [npsm.preNegotiationOk, Bool.and_eq_true, Bool.not_eq_true'] at hc
    obtain ⟨⟨⟨hco, hcs, hobj⟩, hses⟩, hact, hactobj⟩ := hc
    simp [npsm.FetchNowPlaying, hco, hcs, hobj, hses, hact, hactobj, h5, h6]
  · intro hpre h5 h6
    have hc := hpre
    simp only [npsm.preNegotiationOk, Bool.and_eq_true, Bool.not_eq_true'] at hc
    obtain ⟨⟨⟨hco, hcs, hobj⟩, hses⟩, hact, hactobj⟩ := hc
    refine ⟨?_, ?_⟩
    · simp [npsm.FetchNowPlaying, npsm.msgAsDataSource, hco, hcs, hobj, hses, hact, hactobj,
        h5, h6]
    · unfold npsm.msgAsDataSource
      exact strContains_append_right _ (strContains_self_head _ _)
  · intro hpre h5 h6 h7
    have hc := hpre
    simp only [npsm.preNegotiationOk, Bool.and_eq_true, Bool.not_eq_true'] at hc
    obtain ⟨⟨⟨hco, hcs, hobj⟩, hses⟩, hact, hactobj⟩ := hc
    simp [npsm.FetchNowPlaying, hco, hcs, hobj, hses, hact, hactobj, h5, h6, h7]

/-- C2 counterexample: when `GetMediaObjectInfo` fails with HRESULT
`0x80004005`, the resulting pre-property-store failure message contains
neither that status code nor any HRESULT field at all, contradicting
the claim that every such failure message includes the native status
code. -/
theorem npsm_missing_hresult_counterexample :
    npsm.FetchNowPlaying envMoiFail =
      .error ⟨.ApiUnavailable, "Failed to get media object info"⟩
    ∧ strContains "Failed to get media object info"
        (toHex8 envMoiFail.mediaObjectInfo2.hr) = false
    ∧ strContains "Failed to get media object info" "HRESULT" = false :=
  ⟨rfl, by decide, by decide⟩

/-- Witness for C2 (amended): the failing-`CoCreateInstance` branch with
its formatted HRESULT, and the classification of the concrete
`GetMediaObjectInfo` failure as the final no-code branch. -/
theorem npsm_error_chain_amended_witness :
    (npsm.FetchNowPlaying envCoFail = .error ⟨.ApiUnavailable, npsm.msgCoCreate envCoFail⟩
      ∧ strContains (npsm.msgCoCreate envCoFail) (toHex8 envCoFail.coCreateHr) = true)
    ∧ (npsm.preNegotiationOk envMoiFail = true
      ∧ npsm.mediaObjectInfoFailed envMoiFail = true) :=
  ⟨(npsm_error_chain_amended envCoFail).1 (by decide),
   ((npsm_error_chain_amended envMoiFail).2.2.2.2.2.2.2
     ⟨.ApiUnavailable, "Failed to get media object info"⟩ (by decide)).2.1 rfl⟩

/-- C4: once the negotiation chain has produced a property store, the
call always succeeds and each of the three fields is exactly the result
of its own independent property read; consequently, for any subset of
the artist/album lookups that fails, is absent or has the wrong type
(the empty subset, either singleton, or both), the call still succeeds
with exactly those fields absent and the title field intact, and a
successful call has no title exactly when the title read produced
nothing. -/
theorem npsm_independent_props :
    ∀ env : npsm.WinEnv,
      npsm.negotiationOk env = true →
        (npsm.FetchNowPlaying env =
          .ok ⟨npsm.readProp env.conv env.titleProp,
               npsm.readProp env.conv env.artistProp,
               npsm.readProp env.conv env.albumProp, none⟩)
        ∧ (∀ t, npsm.readProp env.conv env.titleProp = some t →
            (npsm.propLookupBad env.artistProp = true →
              ∃ d, npsm.FetchNowPlaying env = .ok d ∧ d.title = some t ∧ d.artist = none)
            ∧ (npsm.propLookupBad env.albumProp = true →
              ∃ d, npsm.FetchNowPlaying env = .ok d ∧ d.title = some t ∧ d.album = none)
            ∧ (npsm.propLookupBad env.artistProp = true →
                npsm.propLookupBad env.albumProp = true →
                npsm.FetchNowPlaying env = .ok ⟨some t, none, none, none⟩))
        ∧ (∀ d, npsm.FetchNowPlaying env = .ok d →
            (d.title = none ↔ npsm.readProp env.conv env.titleProp = none)) := by
  intro env hneg
  have hok := negotiationOk_ok env hneg
  refine ⟨?_, ?_, ?_⟩
  · rw [hok]
    rfl
  · intro t ht
    refine ⟨?_, ?_, ?_⟩
    · intro ha
      exact ⟨npsm.readProps env, hok, ht,
        propLookupBad_none env.conv env.artistProp ha⟩
    · intro hb
      exact ⟨npsm.readProps env, hok, ht,
        propLookupBad_none env.conv env.albumProp hb⟩
    · intro ha hb
      rw [hok]
      unfold npsm.readProps
      rw [ht, propLookupBad_none env.conv env.artistProp ha,
        propLookupBad_none env.conv env.albumProp hb]
  · intro d hd
    rw [hok] at hd
    obtain rfl : npsm.readProps env = d := Except.ok.inj hd
    exact Iff.rfl

/-- Witness for C4: with both artist and album lookups bad
(`envObtained`) the call succeeds with only the title, and with exactly
the artist lookup bad (`envArtistBad`) the call succeeds with the title
intact and the artist absent. -/
theorem npsm_independent_props_witness :
    npsm.FetchNowPlaying envObtained = .ok ⟨some "T", none, none, none⟩
    ∧ (∃ d, npsm.FetchNowPlaying envArtistBad = .ok d
        ∧ d.title = some "T" ∧ d.artist = none) :=
  ⟨((npsm_independent_props envObtained (by decide)).2.1 "T" (by decide)).2.2
     (by decide) (by decide),
   ((npsm_independent_props envArtistBad (by decide)).2.1 "T" (by decide)).1 (by decide)⟩

/-- C8 counterexample: a `ListNames` reply carrying the bare prefix
`org.mpris.MediaPlayer2.` (which `starts_with` accepts) produces a
successful result whose `playerName` field is present with the empty
string as its value. -/
theorem dbus_empty_playerName_counterexample :
    dbus.fetchNowPlaying [DVal.array DType.string [DVal.str dbus.mprisPrefixVal]]
      [DVal.variant (DVal.array DType.dictEntry [])]
      = .ok ⟨none, none, none, some ""⟩ := rfl

/-- C8 (amended): on the DBus backend, the Windows backend and the
macOS subprocess fallback a successful `MediaData` never carries the
empty string in `title`, `artist` or `album`, and `playerName` is never
the empty string except in the DBus backend when the selected bus name
is exactly the bare MPRIS prefix (the one input on which prefix
stripping yields an empty remainder); the macOS native MediaRemote path
is a further exception: it copies the native dictionary's strings
verbatim, so a present-but-empty native string yields a successful
record with that field present and empty (only an absent native title is
converted to `NotFound`), as the concrete empty-title run shows. -/
theorem media_fields_nonempty_amended :
    (∀ (ln meta : List DVal) (d : MediaData),
      dbus.fetchNowPlaying ln meta = .ok d →
        ¬d.title = some "" ∧ ¬d.artist = some "" ∧ ¬d.album = some "" ∧
        (d.playerName = some "" → dbus.listNamesPlayer ln = .ok dbus.mprisPrefixVal))
    ∧ (∀ (env : npsm.WinEnv) (d : MediaData),
        npsm.FetchNowPlaying env = .ok d →
          ¬d.title = some "" ∧ ¬d.artist = some "" ∧ ¬d.album = some "" ∧
          ¬d.playerName = some "")
    ∧ (∀ (pathOpt : Option String) (pipeOk : Bool) (output : String)
        (parsed : Option macos.MediaControlOutput) (d : MediaData),
        macos.fetchViaMediaControl pathOpt pipeOk output parsed = .ok d →
          ¬d.title = some "" ∧ ¬d.artist = some "" ∧ ¬d.album = some "" ∧
          ¬d.playerName = some "")
    ∧ (∀ (urlOk bundleOk fnOk : Bool) (info : Option macos.MRInfo) (d : MediaData),
        macos.fetchViaNativeApi urlOk bundleOk fnOk info = .ok d →
          ∃ i, info = some i ∧ ¬i.title = none
            ∧ d = ⟨i.title, i.artist, i.album, none⟩)
    ∧ macos.fetchViaNativeApi true true true (some ⟨some "", some "", none⟩)
        = .ok ⟨some "", some "", none, none⟩ := by
  refine ⟨?_, ?_, ?_, ?_, rfl⟩
  · intro ln meta d hd
    obtain ⟨p, hp, hparse⟩ := fetch_ok_cases hd
    obtain ⟨l, rfl⟩ := parseMetadata_ok_form hparse
    obtain ⟨g1, g2, g3⟩ :=
      metadataLoop_nonempty l ⟨none, none, none, some (dbus.extractPlayerName p)⟩
        (by simp) (by simp) (by simp)
    refine ⟨g1, g2, g3, ?_⟩
    intro hpn
    rw [metadataLoop_playerName l _] at hpn
    have he : dbus.extractPlayerName p = "" := Option.some.inj hpn
    have hsw : strStartsWith p dbus.mprisPrefixVal = true := listNamesPlayer_ok_startsWith hp
    unfold dbus.extractPlayerName at he
    rw [if_pos hsw] at he
    have hpp : p = dbus.mprisPrefixVal := startsWith_drop_empty hsw he
    rw [← hpp]
    exact hp
  · intro env d hd
    obtain rfl : d = npsm.readProps env := FetchNowPlaying_ok_form hd
    exact ⟨readProp_ne_empty _ _, readProp_ne_empty _ _, readProp_ne_empty _ _,
      by simp [npsm.readProps]⟩
  · intro pathOpt pipeOk output parsed d hd
    cases pathOpt with
    | none => exact absurd hd (fun hh => Except.noConfusion hh)
    | some p0 =>
      cases parsed with
      | none =>
        simp only [macos.fetchViaMediaControl] at hd
        split_ifs at hd
      | some mc =>
        simp only [macos.fetchViaMediaControl] at hd
        split_ifs at hd with h1 h2 ht
        all_goals
          first
          | exact absurd hd (fun hh => Except.noConfusion hh)
          | (obtain rfl :
                MediaData.mk (some mc.title) (macos.optNonempty mc.artist)
                  (macos.optNonempty mc.album) none = d := Except.ok.inj hd
             exact ⟨fun hh => ht (Option.some.inj hh), optNonempty_ne_empty _,
               optNonempty_ne_empty _, by simp⟩)
  · intro urlOk bundleOk fnOk info d hd
    cases urlOk with
    | false => exact absurd hd (fun hh => Except.noConfusion hh)
    | true =>
      cases bundleOk with
      | false => exact absurd hd (fun hh => Except.noConfusion hh)
      | true =>
        cases fnOk with
        | false => exact absurd hd (fun hh => Except.noConfusion hh)
        | true =>
          cases info with
          | none => exact absurd hd (fun hh => Except.noConfusion hh)
          | some i =>
            rcases ht : i.title with _ | t
            · simp only [macos.fetchViaNativeApi, ht] at hd
              exact absurd hd (fun hh => Except.noConfusion hh)
            · simp only [macos.fetchViaNativeApi, ht] at hd
              obtain rfl := Except.ok.inj hd
              exact ⟨i, rfl, by simp [ht], by rw [ht]⟩

/-- Witness for C8 (amended) at the populated DBus example record. -/
theorem media_fields_nonempty_amended_witness :
    ¬(some "Song" : Option String) = some ""
    ∧ ¬(some "Band" : Option String) = some ""
    ∧ ¬(some "Rec" : Option String) = some ""
    ∧ ((some "Foo" : Option String) = some "" →
        dbus.listNamesPlayer [DVal.array DType.string [DVal.str "org.mpris.MediaPlayer2.Foo"]]
          = .ok dbus.mprisPrefixVal) :=
  media_fields_nonempty_amended.1
    [DVal.array DType.string [DVal.str "org.mpris.MediaPlayer2.Foo"]]
    [DVal.variant (DVal.array DType.dictEntry
      [DVal.dictEntry (DVal.str "xesam:title") (DVal.variant (DVal.str "Song")),
       DVal.dictEntry (DVal.str "xesam:artist")
         (DVal.variant (DVal.array DType.string [DVal.str "Band"])),
       DVal.dictEntry (DVal.str "xesam:album") (DVal.variant (DVal.str "Rec"))])]
    ⟨some "Song", some "Band", some "Rec", some "Foo"⟩ (by decide)
